import Mathlib

/-!
Verification of the vezgo-sdk-python client library.

This file gives a shallow embedding, in Lean 4, of the token-lifecycle,
transport and resource-validation core of the SDK (`src/vezgo/client.py`,
`src/vezgo/exceptions.py`, `src/vezgo/resources/*.py`) and proves or refutes
the specification's claims about it.

Modelling conventions:
* Python JSON values are the inductive `Json`.
* Python truthiness (`if x:`) on JSON values is `Json.truthy`; on optional
  strings it is `truthyOptStr` (None and "" are falsy).
* The external HTTP transport (`httpx`) is an oracle
  `http : HttpRequest → HttpOutcome`; `HttpOutcome.transportError`
  models a raised `httpx.HTTPError`, `HttpOutcome.response` a received
  response.  Each operation returns, besides its result and the updated
  client state, the list of network requests it issued.
* The external JWT decoder (`jwt.decode` with signature verification
  disabled) is an oracle `jwtDecode : Json → Option Claims`; `none` models
  a raised decode exception (e.g. `jwt.exceptions.DecodeError` on a
  malformed token, or a `TypeError` on a non-string), `some` the decoded
  claim mapping.  Only the integer `exp` claim is ever consulted by the
  client, so claims are modelled as a string-to-integer association list.
* A Python exception outcome is `Except.error`: `PyErr.vezgo e` for the
  SDK's own exception hierarchy, `PyErr.pythonError name` for an uncaught
  foreign exception (JSONDecodeError, AttributeError, jwt DecodeError).
* `time.time()` is passed in as an integer-valued instant `now`.
-/

/-- Python/JSON values as decoded by `response.json()`. -/
inductive Json : Type where
  | null : Json
  | bool (b : Bool) : Json
  | num (n : Int) : Json
  | str (s : String) : Json
  | arr (elems : List Json) : Json
  | obj (fields : List (String × Json)) : Json
deriving Repr

/-- Python truthiness of a JSON value (`if x:`). -/
def Json.truthy : Json → Bool
  | .null => false
  | .bool b => b
  | .num n => n != 0
  | .str s => s != ""
  | .arr elems => !elems.isEmpty
  | .obj fields => !fields.isEmpty

/-- First-match lookup in a string-keyed association list
(`dict.get`; dict keys are unique, so first match is the only match). -/
def lookupKey {β : Type} (k : String) : List (String × β) → Option β
  | [] => none
  | p :: rest => if p.1 = k then some p.2 else lookupKey k rest

/-- Decoded JWT claim set; only integer claims (`exp`) are read by the client. -/
abbrev Claims := List (String × Int)

/-- Python truthiness of an optional string (None and "" are falsy). -/
def truthyOptStr : Option String → Bool
  | none => false
  | some s => s != ""

/-- The SDK's exception taxonomy (`exceptions.py`): one class per failure
kind, all subclasses of `VezgoError`. -/
inductive VezgoErrKind : Type where
  | validation
  | authentication
  | notFound
  | rateLimit
  | api
deriving Repr, DecidableEq

/-- `VezgoError.__init__`: stores message, optional status code and
`response_data or {}`.  The message is a JSON value because
`error_data.get("message", ...)` can hand any decoded JSON value to the
constructor; client-side messages are `Json.str` literals. -/
structure VezgoErr : Type where
  kind : VezgoErrKind
  message : Json
  status_code : Option Nat
  response_data : List (String × Json)
deriving Repr

/-- A raised Python exception: either one of the SDK's `VezgoError`
subclasses, or an uncaught foreign exception identified by name. -/
inductive PyErr : Type where
  | vezgo (e : VezgoErr) : PyErr
  | pythonError (name : String) : PyErr
deriving Repr

/-- `VezgoValidationError(msg)` raised client-side (no status, no payload). -/
def validationErr (msg : String) : VezgoErr :=
  ⟨.validation, Json.str msg, none, []⟩

/-- `VezgoAuthenticationError(msg)` raised client-side. -/
def authenticationErr (msg : String) : VezgoErr :=
  ⟨.authentication, Json.str msg, none, []⟩

/-- `VezgoAPIError(msg)` raised client-side. -/
def apiErr (msg : String) : VezgoErr :=
  ⟨.api, Json.str msg, none, []⟩

/-- An HTTP response as seen through `httpx.Response`: status code, the
decoded JSON body (`none` when `response.json()` would raise), and the
raw text body. -/
structure HttpResponse : Type where
  status : Nat
  json : Option Json
  text : String
deriving Repr

/-- A network request as handed to the underlying `httpx.Client`. -/
structure HttpRequest : Type where
  method : String
  url : String
  params : Option (List (String × Json))
  body : Option Json
  headers : List (String × String)
deriving Repr

/-- Outcome of handing a request to the transport: a raised
`httpx.HTTPError` (connection failure, timeout, ...) or a response. -/
inductive HttpOutcome : Type where
  | transportError (msg : String) : HttpOutcome
  | response (r : HttpResponse) : HttpOutcome
deriving Repr

/-- `httpx.Response.is_success`: status in the 2xx range. -/
def isSuccessStatus (status : Nat) : Bool :=
  200 ≤ status && status < 300

/-- The decoded error payload `_handle_response_errors` ends up storing:
the body's fields when it decodes to a JSON object, `{}` otherwise
(a decode failure or a non-object body both land in the
`except Exception` fallback after `.get` raises). -/
def errorPayloadOf (r : HttpResponse) : List (String × Json) :=
  match r.json with
  | some (Json.obj fields) => fields
  | _ => []

/-- The message `_handle_response_errors` extracts:
`error_data.get("message", error_data.get("error", response.text))` for an
object body, else `response.text or f"HTTP {status_code}"`. -/
def errorMessageOf (r : HttpResponse) : Json :=
  match r.json with
  | some (Json.obj fields) =>
      ((lookupKey "message" fields).orElse
        (fun _ => lookupKey "error" fields)).getD (Json.str r.text)
  | _ => Json.str (if r.text = "" then "HTTP " ++ toString r.status else r.text)

/-- `Vezgo._handle_response_errors`: `none` on a success response,
otherwise the `VezgoError` it raises, chosen by status code. -/
def handleResponseErrors (r : HttpResponse) : Option VezgoErr :=
  if isSuccessStatus r.status then none
  else
    let message := errorMessageOf r
    let error_data := errorPayloadOf r
    if r.status = 401 then some ⟨.authentication, message, some r.status, error_data⟩
    else if r.status = 404 then some ⟨.notFound, message, some r.status, error_data⟩
    else if r.status = 429 then some ⟨.rateLimit, message, some r.status, error_data⟩
    else if r.status = 400 then some ⟨.validation, message, some r.status, error_data⟩
    else some ⟨.api, message, some r.status, error_data⟩

mutual

/-- Python `str()` of a decoded JSON value, used when the token is spliced
into the `f"Bearer {token}"` header (tokens are strings in practice, for
which this is the identity). -/
def Json.pyRepr : Json → String
  | .null => "None"
  | .bool true => "True"
  | .bool false => "False"
  | .num n => toString n
  | .str s => s
  | .arr elems => "[" ++ pyReprList elems ++ "]"
  | .obj fields => "\x7b" ++ pyReprObj fields ++ "\x7d"

def pyReprList : List Json → String
  | [] => ""
  | [j] => Json.pyRepr j
  | j :: rest => Json.pyRepr j ++ ", " ++ pyReprList rest

def pyReprObj : List (String × Json) → String
  | [] => ""
  | [(k, v)] => k ++ ": " ++ Json.pyRepr v
  | (k, v) :: rest => k ++ ": " ++ Json.pyRepr v ++ ", " ++ pyReprObj rest

end
/-- `constants.py`: `API_URL = f"{BASE_API_URL}/{API_VERSION}"`. -/
def API_URL : String := "https://api.vezgo.com/v1"

/-- `constants.py`: `CONNECT_URL`. -/
def CONNECT_URL : String := "https://connect.vezgo.com"

/-- `constants.py`: `DEFAULT_TOKEN_MINIMUM_LIFETIME` (seconds). -/
def DEFAULT_TOKEN_MINIMUM_LIFETIME : Int := 10

/-- A resource accessor object (`Accounts(self)`, `Providers(self)`, ...):
each is a stateless handle bound to its client; only presence matters. -/
inductive ResourceHandle : Type where
  | mk : ResourceHandle
deriving Repr, DecidableEq

/-- The `Vezgo` client state: the configuration fields, the token cache
(`_token`, `_token_payload`) and the resource accessors set up by
`__init__` / `_init_user_resources`. -/
structure Vezgo : Type where
  client_id : String
  secret : String
  base_url : String
  connect_url : String
  login_name : Option String
  timeout : Rat
  token : Option Json
  token_payload : Option Claims
  providers : Option ResourceHandle
  teams : Option ResourceHandle
  accounts : Option ResourceHandle
  transactions : Option ResourceHandle
  history : Option ResourceHandle
  orders : Option ResourceHandle
deriving Repr

/-- Python `x or default` on an optional string (None and "" are falsy). -/
def orDefault (v : Option String) (dflt : String) : String :=
  match v with
  | some s => if s ≠ "" then s else dflt
  | none => dflt

/-- `Vezgo.__init__`: validates `client_id` and `secret`, fills the
configuration with defaults, starts with an empty token cache, creates the
unauthenticated accessors, and creates the user accessors exactly when the
`login_name` argument is truthy (`if login_name: self._init_user_resources()`,
inlined here together with `_init_user_resources`). -/
def Vezgo.init (client_id secret : String)
    (base_url connect_url login_name : Option String) (timeout : Rat) :
    Except PyErr Vezgo :=
  if client_id = "" then
    .error (.vezgo (validationErr "Please provide a valid Vezgo client_id."))
  else if secret = "" then
    .error (.vezgo (validationErr "Please provide a valid Vezgo secret."))
  else
    .ok {
      client_id := client_id
      secret := secret
      base_url := orDefault base_url API_URL
      connect_url := orDefault connect_url CONNECT_URL
      login_name := login_name
      timeout := timeout
      token := none
      token_payload := none
      providers := some ResourceHandle.mk
      teams := some ResourceHandle.mk
      accounts := if truthyOptStr login_name then some ResourceHandle.mk else none
      transactions := if truthyOptStr login_name then some ResourceHandle.mk else none
      history := if truthyOptStr login_name then some ResourceHandle.mk else none
      orders := if truthyOptStr login_name then some ResourceHandle.mk else none
    }

/-- `Vezgo.login`: validates the name and constructs a fresh instance with
the same configuration and the given login name.  The first component is
the parent's state after the call (the method body performs no assignment
to `self`, so it is returned as received). -/
def Vezgo.login (s : Vezgo) (login_name : String) : Vezgo × Except PyErr Vezgo :=
  if login_name = "" then
    (s, .error (.vezgo (validationErr "Please provide a valid login_name.")))
  else
    (s, Vezgo.init s.client_id s.secret (some s.base_url) (some s.connect_url)
          (some login_name) s.timeout)

/-- Result of running one client operation: the returned value or raised
exception, the client state afterwards, and the network requests issued. -/
structure Outcome (α : Type) : Type where
  result : Except PyErr α
  state : Vezgo
  requests : List HttpRequest
deriving Repr

/-- The `POST /auth/token` request `fetch_token` issues. -/
def tokenRequest (s : Vezgo) : HttpRequest :=
  { method := "POST"
    url := "/auth/token"
    params := none
    body := some (Json.obj [("clientId", Json.str s.client_id),
                            ("secret", Json.str s.secret)])
    headers := [("loginName", s.login_name.getD "")] }

/-- `Vezgo.fetch_token`: raises a `VezgoValidationError` when no (truthy)
login name is bound; otherwise posts to `/auth/token` and, on a response
whose status passes `_handle_response_errors`, reads `data.get("token")`.
A falsy/missing token raises `VezgoAuthenticationError`; otherwise
`self._token` is assigned, then `jwt.decode` runs (its failure — an
uncaught foreign exception — leaves `_token_payload` behind), and on
success `self._token_payload` is assigned and the token returned.
`except httpx.HTTPError` wraps only transport failures as
`VezgoAuthenticationError`; all other raised exceptions propagate. -/
def fetchToken (http : HttpRequest → HttpOutcome) (jwtDecode : Json → Option Claims)
    (s : Vezgo) : Outcome Json :=
  if truthyOptStr s.login_name = false then
    ⟨.error (.vezgo (validationErr
        "Cannot fetch token without a login_name. Use login() method first.")),
      s, []⟩
  else
    match http (tokenRequest s) with
    | .transportError e =>
        ⟨.error (.vezgo (authenticationErr ("Failed to fetch token: " ++ e))), s,
          [tokenRequest s]⟩
    | .response r =>
        match handleResponseErrors r with
        | some err => ⟨.error (.vezgo err), s, [tokenRequest s]⟩
        | none =>
            match r.json with
            | none => ⟨.error (.pythonError "JSONDecodeError"), s, [tokenRequest s]⟩
            | some (Json.obj fields) =>
                match lookupKey "token" fields with
                | none =>
                    ⟨.error (.vezgo (authenticationErr "No token received from API")),
                      s, [tokenRequest s]⟩
                | some tok =>
                    if tok.truthy = false then
                      ⟨.error (.vezgo (authenticationErr "No token received from API")),
                        s, [tokenRequest s]⟩
                    else
                      match jwtDecode tok with
                      | none =>
                          ⟨.error (.pythonError "DecodeError"),
                            { s with token := some tok }, [tokenRequest s]⟩
                      | some claims =>
                          ⟨.ok tok,
                            { s with token := some tok, token_payload := some claims },
                            [tokenRequest s]⟩
            | some _ => ⟨.error (.pythonError "AttributeError"), s, [tokenRequest s]⟩

/-- `Vezgo.get_token`: when both `self._token` and `self._token_payload`
are truthy and `current_time < exp - minimum_lifetime` (with `exp`
defaulting to `0` when the claim is missing), returns the cached token
with no network call and no state change; otherwise delegates to
`fetch_token`. -/
def getToken (now minimum_lifetime : Int) (http : HttpRequest → HttpOutcome)
    (jwtDecode : Json → Option Claims) (s : Vezgo) : Outcome Json :=
  match s.token, s.token_payload with
  | some t, some p =>
      if t.truthy && !p.isEmpty then
        if now < (lookupKey "exp" p).getD 0 - minimum_lifetime then
          ⟨.ok t, s, []⟩
        else fetchToken http jwtDecode s
      else fetchToken http jwtDecode s
  | _, _ => fetchToken http jwtDecode s

/-- The `try:` block of `Vezgo._request` (lines 271–288): issue the call,
wrap a transport failure as `VezgoAPIError`, raise the mapped error on a
non-success status, return `None` on 204, else the decoded JSON body
(an undecodable success body raises an uncaught JSONDecodeError). -/
def requestCore (req : HttpRequest) (http : HttpRequest → HttpOutcome) :
    Except PyErr (Option Json) :=
  match http req with
  | .transportError e => .error (.vezgo (apiErr ("Request failed: " ++ e)))
  | .response r =>
      match handleResponseErrors r with
      | some err => .error (.vezgo err)
      | none =>
          if r.status = 204 then .ok none
          else
            match r.json with
            | some j => .ok (some j)
            | none => .error (.pythonError "JSONDecodeError")

/-- `Vezgo._request`: when `authenticated`, first obtains a token via
`get_token()` (default minimum lifetime) — outside the `try:` block, so
its failures propagate unwrapped — and attaches the
`Authorization: Bearer <token>` header; then runs the request core. -/
def request (method endpoint : String) (params : Option (List (String × Json)))
    (jsonBody : Option Json) (authenticated : Bool) (now : Int)
    (http : HttpRequest → HttpOutcome) (jwtDecode : Json → Option Claims)
    (s : Vezgo) : Outcome (Option Json) :=
  if authenticated then
    match getToken now DEFAULT_TOKEN_MINIMUM_LIFETIME http jwtDecode s with
    | ⟨.error e, s1, reqs⟩ => ⟨.error e, s1, reqs⟩
    | ⟨.ok tok, s1, reqs⟩ =>
        let req : HttpRequest :=
          ⟨method, endpoint, params, jsonBody,
            [("Authorization", "Bearer " ++ tok.pyRepr)]⟩
        ⟨requestCore req http, s1, reqs ++ [req]⟩
  else
    let req : HttpRequest := ⟨method, endpoint, params, jsonBody, []⟩
    ⟨requestCore req http, s, [req]⟩



/-- Query-parameter inclusion under Python truthiness: `if v: params[k] = v`
for an optional string filter (absent and empty string both excluded). -/
def ifTruthyStr (k : String) (v : Option String) : List (String × Json) :=
  match v with
  | some x => if x ≠ "" then [(k, Json.str x)] else []
  | none => []

/-- `if v is not None: params[k] = v` for a string filter (`last`:
"Allow empty string for pagination"). -/
def ifSomeStr (k : String) (v : Option String) : List (String × Json) :=
  match v with
  | some x => [(k, Json.str x)]
  | none => []

/-- `if v: params[k] = v` for an optional integer filter (`limit`;
zero is falsy and excluded). -/
def ifTruthyInt (k : String) (v : Option Int) : List (String × Json) :=
  match v with
  | some n => if n ≠ 0 then [(k, Json.num n)] else []
  | none => []

/-- Python `params or None` when handing the dict to `_request`. -/
def paramsOrNone (ps : List (String × Json)) : Option (List (String × Json)) :=
  if ps.isEmpty then none else some ps

/-- The query-parameter dict built by `Transactions.get_list`, in the
source's insertion order. -/
def Transactions.listParams (ticker from_date to_date wallet last : Option String)
    (limit : Option Int) (sort types exclude_fields : Option String) :
    List (String × Json) :=
  ifTruthyStr "ticker" ticker ++ ifTruthyStr "from" from_date ++
    ifTruthyStr "to" to_date ++ ifTruthyStr "wallet" wallet ++
    ifSomeStr "last" last ++ ifTruthyInt "limit" limit ++
    ifTruthyStr "sort" sort ++ ifTruthyStr "types" types ++
    ifTruthyStr "exclude_fields" exclude_fields

/-- The query-parameter dict built by `Orders.get_list`, in the source's
insertion order. -/
def Orders.listParams (from_date to_date last : Option String)
    (limit : Option Int) (sort : Option String) : List (String × Json) :=
  ifTruthyStr "from" from_date ++ ifTruthyStr "to" to_date ++
    ifSomeStr "last" last ++ ifTruthyInt "limit" limit ++
    ifTruthyStr "sort" sort

/-- The query-parameter dict built by `History.get_list`. -/
def History.listParams (from_date to_date wallet : Option String) :
    List (String × Json) :=
  ifTruthyStr "from" from_date ++ ifTruthyStr "to" to_date ++
    ifTruthyStr "wallet" wallet

/-- The query-parameter dict built by `Accounts.get_list`
(`if wallet: params["wallet"] = wallet`). -/
def Accounts.listParams (wallet : Option String) : List (String × Json) :=
  ifTruthyStr "wallet" wallet

/-- The query-parameter dict built by `Providers.get_list`
(`if category: params["category"] = category`). -/
def Providers.listParams (category : Option String) : List (String × Json) :=
  ifTruthyStr "category" category

/-- `Accounts.get_list`: authenticated `GET /accounts` with optional
truthy `wallet` filter. -/
def Accounts.get_list (wallet : Option String) (now : Int)
    (http : HttpRequest → HttpOutcome) (jwtDecode : Json → Option Claims)
    (s : Vezgo) : Outcome (Option Json) :=
  request "GET" "/accounts" (paramsOrNone (Accounts.listParams wallet)) none
    true now http jwtDecode s

/-- `Accounts.get_one`: validates `account_id` non-empty before building
the request, then authenticated `GET /accounts/{account_id}`. -/
def Accounts.get_one (account_id : String) (wallet : Option String) (now : Int)
    (http : HttpRequest → HttpOutcome) (jwtDecode : Json → Option Claims)
    (s : Vezgo) : Outcome (Option Json) :=
  if account_id = "" then
    ⟨.error (.vezgo (validationErr "Please provide a valid Vezgo account ID.")), s, []⟩
  else
    request "GET" ("/accounts/" ++ account_id)
      (paramsOrNone (ifTruthyStr "wallet" wallet)) none true now http jwtDecode s

/-- `Accounts.sync`: validates `account_id`, then authenticated
`POST /accounts/{account_id}/sync` with an empty JSON body. -/
def Accounts.sync (account_id : String) (now : Int)
    (http : HttpRequest → HttpOutcome) (jwtDecode : Json → Option Claims)
    (s : Vezgo) : Outcome (Option Json) :=
  if account_id = "" then
    ⟨.error (.vezgo (validationErr "Please provide a valid Vezgo account ID.")), s, []⟩
  else
    request "POST" ("/accounts/" ++ account_id ++ "/sync") none
      (some (Json.obj [])) true now http jwtDecode s

/-- `Accounts.remove`: validates `account_id`, then authenticated
`DELETE /accounts/{account_id}`. -/
def Accounts.remove (account_id : String) (now : Int)
    (http : HttpRequest → HttpOutcome) (jwtDecode : Json → Option Claims)
    (s : Vezgo) : Outcome (Option Json) :=
  if account_id = "" then
    ⟨.error (.vezgo (validationErr "Please provide a valid Vezgo account ID.")), s, []⟩
  else
    request "DELETE" ("/accounts/" ++ account_id) none none true now http jwtDecode s

/-- `Transactions.get_list`: validates `account_id`, builds the filter
dict, then authenticated `GET /accounts/{account_id}/transactions`. -/
def Transactions.get_list (account_id : String)
    (ticker from_date to_date wallet last : Option String) (limit : Option Int)
    (sort types exclude_fields : Option String) (now : Int)
    (http : HttpRequest → HttpOutcome) (jwtDecode : Json → Option Claims)
    (s : Vezgo) : Outcome (Option Json) :=
  if account_id = "" then
    ⟨.error (.vezgo (validationErr "Please provide a valid Vezgo account ID.")), s, []⟩
  else
    request "GET" ("/accounts/" ++ account_id ++ "/transactions")
      (paramsOrNone (Transactions.listParams ticker from_date to_date wallet last
        limit sort types exclude_fields)) none true now http jwtDecode s

/-- `Transactions.get_one`: validates `account_id` then `tx_id`, then
authenticated `GET /accounts/{account_id}/transactions/{tx_id}`. -/
def Transactions.get_one (account_id tx_id : String) (now : Int)
    (http : HttpRequest → HttpOutcome) (jwtDecode : Json → Option Claims)
    (s : Vezgo) : Outcome (Option Json) :=
  if account_id = "" then
    ⟨.error (.vezgo (validationErr "Please provide a valid Vezgo account ID.")), s, []⟩
  else if tx_id = "" then
    ⟨.error (.vezgo (validationErr "Please provide a valid Vezgo transaction ID.")),
      s, []⟩
  else
    request "GET" ("/accounts/" ++ account_id ++ "/transactions/" ++ tx_id) none
      none true now http jwtDecode s

/-- `Orders.get_list`: validates `account_id`, builds the filter dict,
then authenticated `GET /accounts/{account_id}/orders`. -/
def Orders.get_list (account_id : String) (from_date to_date last : Option String)
    (limit : Option Int) (sort : Option String) (now : Int)
    (http : HttpRequest → HttpOutcome) (jwtDecode : Json → Option Claims)
    (s : Vezgo) : Outcome (Option Json) :=
  if account_id = "" then
    ⟨.error (.vezgo (validationErr "Please provide a valid Vezgo account ID.")), s, []⟩
  else
    request "GET" ("/accounts/" ++ account_id ++ "/orders")
      (paramsOrNone (Orders.listParams from_date to_date last limit sort)) none
      true now http jwtDecode s

/-- `Orders.get_one`: validates `account_id` then `order_id`, then
authenticated `GET /accounts/{account_id}/orders/{order_id}`. -/
def Orders.get_one (account_id order_id : String) (now : Int)
    (http : HttpRequest → HttpOutcome) (jwtDecode : Json → Option Claims)
    (s : Vezgo) : Outcome (Option Json) :=
  if account_id = "" then
    ⟨.error (.vezgo (validationErr "Please provide a valid Vezgo account ID.")), s, []⟩
  else if order_id = "" then
    ⟨.error (.vezgo (validationErr "Please provide a valid Vezgo order ID.")), s, []⟩
  else
    request "GET" ("/accounts/" ++ account_id ++ "/orders/" ++ order_id) none
      none true now http jwtDecode s

/-- `History.get_list`: validates `account_id`, builds the filter dict,
then authenticated `GET /accounts/{account_id}/history`. -/
def History.get_list (account_id : String) (from_date to_date wallet : Option String)
    (now : Int) (http : HttpRequest → HttpOutcome)
    (jwtDecode : Json → Option Claims) (s : Vezgo) : Outcome (Option Json) :=
  if account_id = "" then
    ⟨.error (.vezgo (validationErr "Please provide a valid Vezgo account ID.")), s, []⟩
  else
    request "GET" ("/accounts/" ++ account_id ++ "/history")
      (paramsOrNone (History.listParams from_date to_date wallet)) none true now
      http jwtDecode s

/-- `Providers.get_list`: unauthenticated `GET /providers` with optional
truthy `category` filter. -/
def Providers.get_list (category : Option String) (now : Int)
    (http : HttpRequest → HttpOutcome) (jwtDecode : Json → Option Claims)
    (s : Vezgo) : Outcome (Option Json) :=
  request "GET" "/providers" (paramsOrNone (Providers.listParams category)) none
    false now http jwtDecode s

/-- `Providers.get_one`: validates `provider_id`, then unauthenticated
`GET /providers/{provider_id}`. -/
def Providers.get_one (provider_id : String) (now : Int)
    (http : HttpRequest → HttpOutcome) (jwtDecode : Json → Option Claims)
    (s : Vezgo) : Outcome (Option Json) :=
  if provider_id = "" then
    ⟨.error (.vezgo (validationErr "Please provide a valid provider ID.")), s, []⟩
  else
    request "GET" ("/providers/" ++ provider_id) none none false now http jwtDecode s

/-- `Teams.info`: unauthenticated `GET /teams/info?client_id={client_id}`. -/
def Teams.info (now : Int) (http : HttpRequest → HttpOutcome)
    (jwtDecode : Json → Option Claims) (s : Vezgo) : Outcome (Option Json) :=
  request "GET" ("/teams/info?client_id=" ++ s.client_id) none none false now
    http jwtDecode s

/-- The freshness test `get_token` performs on its cache: both `_token`
and `_token_payload` truthy, and `now < exp - minimum_lifetime` with the
`exp` claim defaulting to `0`. -/
def cachedFresh (now minimum_lifetime : Int) (s : Vezgo) : Bool :=
  match s.token, s.token_payload with
  | some t, some p =>
      t.truthy && !p.isEmpty &&
        decide (now < (lookupKey "exp" p).getD 0 - minimum_lifetime)
  | _, _ => false

/-- Fixture: an anonymous client, as built by
`Vezgo(client_id="cid", secret="sec")`. -/
def sAnon : Vezgo :=
  { client_id := "cid", secret := "sec", base_url := API_URL,
    connect_url := CONNECT_URL, login_name := none, timeout := 30,
    token := none, token_payload := none,
    providers := some ResourceHandle.mk, teams := some ResourceHandle.mk,
    accounts := none, transactions := none, history := none, orders := none }

/-- Fixture: a user-scoped client for `"u1"` that already holds a cached
token `"old"` with claim set `{"exp": 99}` (the state after one
successful `fetch_token`). -/
def sUser : Vezgo :=
  { client_id := "cid", secret := "sec", base_url := API_URL,
    connect_url := CONNECT_URL, login_name := some "u1", timeout := 30,
    token := some (Json.str "old"), token_payload := some [("exp", 99)],
    providers := some ResourceHandle.mk, teams := some ResourceHandle.mk,
    accounts := some ResourceHandle.mk, transactions := some ResourceHandle.mk,
    history := some ResourceHandle.mk, orders := some ResourceHandle.mk }

/-- Fixture transport: every request fails at the transport level. -/
def httpDown : HttpRequest → HttpOutcome :=
  fun _ => .transportError "ConnectError"

/-- Fixture transport: every request gets a 500 response with body `{}`. -/
def http500 : HttpRequest → HttpOutcome :=
  fun _ => .response ⟨500, some (Json.obj []), "oops"⟩

/-- Fixture transport: every request gets `200 {"token": tok}`. -/
def httpToken (tok : Json) : HttpRequest → HttpOutcome :=
  fun _ => .response ⟨200, some (Json.obj [("token", tok)]), ""⟩

/-- Fixture JWT decoder that always fails (models `jwt.decode` raising
`DecodeError` on a malformed token). -/
def jdNone : Json → Option Claims := fun _ => none

/-- Fixture JWT decoder yielding `{"exp": e}` for every token. -/
def jdExp (e : Int) : Json → Option Claims := fun _ => some [("exp", e)]

/-- Helper: a success-status response passes `_handle_response_errors`. -/
theorem handleResponseErrors_success (r : HttpResponse)
    (h : isSuccessStatus r.status = true) : handleResponseErrors r = none := by
  simp [handleResponseErrors, h]

/-- C2: every non-success response is mapped by `_handle_response_errors`
to an error whose kind is determined by the status code
(401 → authentication, 404 → not found, 429 → rate limit,
400 → validation, anything else → generic API error) and which carries
the original status code and the (possibly empty) decoded error payload. -/
theorem C2_error_taxonomy (r : HttpResponse)
    (h : isSuccessStatus r.status = false) :
    ∃ e, handleResponseErrors r = some e ∧
      e.status_code = some r.status ∧
      e.response_data = errorPayloadOf r ∧
      (r.status = 401 → e.kind = .authentication) ∧
      (r.status = 404 → e.kind = .notFound) ∧
      (r.status = 429 → e.kind = .rateLimit) ∧
      (r.status = 400 → e.kind = .validation) ∧
      (r.status ≠ 401 → r.status ≠ 404 → r.status ≠ 429 → r.status ≠ 400 →
        e.kind = .api) := by
  unfold handleResponseErrors
  rw [h]
  simp only [Bool.false_eq_true, if_false]
  split_ifs with h1 h2 h3 h4 <;>
    exact ⟨_, rfl, rfl, rfl, by simp_all⟩

/-- Witness for C2 at the concrete response `500 / body "{}" / text "oops"`:
the mapped error is a generic API error carrying status 500 and payload `{}`. -/
theorem C2_error_taxonomy_witness :
    handleResponseErrors ⟨500, some (Json.obj []), "oops"⟩ =
        some ⟨.api, Json.str "oops", some 500, []⟩ ∧
      (⟨.api, Json.str "oops", some 500, []⟩ : VezgoErr).status_code = some 500 ∧
      (⟨.api, Json.str "oops", some 500, []⟩ : VezgoErr).response_data =
        errorPayloadOf ⟨500, some (Json.obj []), "oops"⟩ ∧
      (⟨.api, Json.str "oops", some 500, []⟩ : VezgoErr).kind = .api := by
  obtain ⟨e, he, h1, h2, h3, h4, h5, h6, h7⟩ :=
    C2_error_taxonomy ⟨500, some (Json.obj []), "oops"⟩ rfl
  have he0 : (some e : Option VezgoErr) =
      some ⟨.api, Json.str "oops", some 500, []⟩ := he.symm.trans rfl
  injection he0 with he0
  subst he0
  exact ⟨he, h1, h2, h7 (by decide) (by decide) (by decide) (by decide)⟩

/-- C9: for a transport-layer request whose response has a success status,
`_request`'s response handling (`requestCore`, its `try:` block, through
which both authenticated and unauthenticated calls go) returns `None` on
the explicit no-content status 204 — not an error and not an empty object —
and on every other success status returns the decoded JSON payload
unmodified. -/
theorem C9_success_payload (req : HttpRequest) (http : HttpRequest → HttpOutcome)
    (r : HttpResponse) (hresp : http req = .response r)
    (hs : isSuccessStatus r.status = true) :
    (r.status = 204 → requestCore req http = .ok none) ∧
    (r.status ≠ 204 → ∀ j, r.json = some j → requestCore req http = .ok (some j)) := by
  constructor
  · intro h204
    simp [requestCore, hresp, handleResponseErrors_success r hs, h204]
  · intro h204 j hj
    simp [requestCore, hresp, handleResponseErrors_success r hs, h204, hj]

/-- Witness for C9: a 204 response yields `None`, and a 200 response with
body `{"a": 1}` yields that payload, at a concrete request. -/
theorem C9_success_payload_witness :
    requestCore ⟨"GET", "/accounts", none, none, []⟩
        (fun _ => .response ⟨204, none, ""⟩) = .ok none ∧
    requestCore ⟨"GET", "/accounts", none, none, []⟩
        (fun _ => .response ⟨200, some (Json.obj [("a", Json.num 1)]), ""⟩) =
      .ok (some (Json.obj [("a", Json.num 1)])) :=
  ⟨(C9_success_payload ⟨"GET", "/accounts", none, none, []⟩
      (fun _ => .response ⟨204, none, ""⟩) ⟨204, none, ""⟩ rfl rfl).1 rfl,
   (C9_success_payload ⟨"GET", "/accounts", none, none, []⟩
      (fun _ => .response ⟨200, some (Json.obj [("a", Json.num 1)]), ""⟩)
      ⟨200, some (Json.obj [("a", Json.num 1)]), ""⟩ rfl rfl).2 (by decide) _ rfl⟩

/-- C10: a client constructed without a login name has all four
user-scoped accessors absent, and the unauthenticated accessors
(`providers`, `teams`) are present on every successfully constructed
instance, anonymous or user-scoped. -/
theorem C10_resource_presence (client_id secret : String)
    (base_url connect_url login_name : Option String) (timeout : Rat) (v : Vezgo)
    (h : Vezgo.init client_id secret base_url connect_url login_name timeout = .ok v) :
    v.providers.isSome ∧ v.teams.isSome ∧
    (login_name = none →
      v.accounts = none ∧ v.transactions = none ∧ v.history = none ∧
        v.orders = none) := by
  unfold Vezgo.init at h
  split_ifs at h <;>
    first
      | exact Except.noConfusion h
      | (injection h with h; subst h;
         refine ⟨rfl, rfl, fun hln => ?_⟩; subst hln; simp_all [truthyOptStr])

/-- Witness for C10 at `Vezgo(client_id="cid", secret="sec")`. -/
theorem C10_resource_presence_witness :
    sAnon.providers.isSome ∧ sAnon.teams.isSome ∧
    (sAnon.accounts = none ∧ sAnon.transactions = none ∧ sAnon.history = none ∧
      sAnon.orders = none) := by
  have h := C10_resource_presence "cid" "sec" none none none 30 sAnon (by rfl)
  exact ⟨h.1, h.2.1, h.2.2 rfl⟩

/-- C6: `login("")` always fails with a `VezgoValidationError`; for every
non-empty name, `login` returns a new instance whose `login_name` is the
given name, whose `client_id`, `secret` and `base_url` equal the
parent's, and whose user-scoped accessors are all present.  The parent's
`client_id`, `secret` and `base_url` are non-empty on every constructed
instance (`__init__` validates the former two and defaults the URL), which
the non-emptiness hypotheses record. -/
theorem C6_login_validation (s : Vezgo) :
    ((s.login "").snd =
      .error (.vezgo (validationErr "Please provide a valid login_name."))) ∧
    (∀ name, name ≠ "" → s.client_id ≠ "" → s.secret ≠ "" → s.base_url ≠ "" →
      ∃ c, (s.login name).snd = .ok c ∧ c.login_name = some name ∧
        c.client_id = s.client_id ∧ c.secret = s.secret ∧
        c.base_url = s.base_url ∧ c.accounts.isSome ∧ c.transactions.isSome ∧
        c.history.isSome ∧ c.orders.isSome) := by
  constructor
  · simp [Vezgo.login]
  · intro name hn h1 h2 h3
    simp only [Vezgo.login, if_neg hn, Vezgo.init, if_neg h1, if_neg h2]
    exact ⟨_, rfl, rfl, rfl, rfl, by simp [orDefault, h3],
      by simp [truthyOptStr, hn], by simp [truthyOptStr, hn],
      by simp [truthyOptStr, hn], by simp [truthyOptStr, hn]⟩

/-- Witness for C6 at the anonymous fixture client and the name `"u1"`. -/
theorem C6_login_validation_witness :
    ((sAnon.login "").snd =
      .error (.vezgo (validationErr "Please provide a valid login_name."))) ∧
    (sAnon.login "u1").snd =
      .ok { sAnon with
            login_name := some "u1"
            accounts := some ResourceHandle.mk
            transactions := some ResourceHandle.mk
            history := some ResourceHandle.mk
            orders := some ResourceHandle.mk } ∧
    ({ sAnon with
        login_name := some "u1"
        accounts := some ResourceHandle.mk
        transactions := some ResourceHandle.mk
        history := some ResourceHandle.mk
        orders := some ResourceHandle.mk } : Vezgo).accounts.isSome := by
  obtain ⟨c, hc, hl, h1, h2, h3, h4, h5, h6, h7⟩ :=
    (C6_login_validation sAnon).2 "u1" (by decide) (by decide) (by decide)
      (by decide)
  refine ⟨(C6_login_validation sAnon).1, rfl, rfl⟩

/-- C7: `login` never mutates its parent — the parent state after the call
is exactly the state before (the method body only reads `self`) — and the
returned instance shares no mutable state with the parent: its token cache
starts empty regardless of the parent's. -/
theorem C7_login_frame (s : Vezgo) (name : String) :
    (s.login name).fst = s ∧
    (∀ c, (s.login name).snd = .ok c →
      c.token = none ∧ c.token_payload = none) := by
  constructor
  · unfold Vezgo.login
    split <;> rfl
  · intro c hc
    unfold Vezgo.login at hc
    split at hc
    · exact Except.noConfusion hc
    · unfold Vezgo.init at hc
      split_ifs at hc <;>
        first
          | exact Except.noConfusion hc
          | (injection hc with hc; subst hc; exact ⟨rfl, rfl⟩)

/-- Witness for C7 at the user fixture client (which holds a cached
token) and the name `"u2"`: the parent is unchanged and the child's cache
is empty. -/
theorem C7_login_frame_witness :
    (sUser.login "u2").fst = sUser ∧
    ({ sUser with
        login_name := some "u2"
        token := none
        token_payload := none } : Vezgo).token = none ∧
    ({ sUser with
        login_name := some "u2"
        token := none
        token_payload := none } : Vezgo).token_payload = none := by
  refine ⟨(C7_login_frame sUser "u2").1, ?_, ?_⟩
  · exact ((C7_login_frame sUser "u2").2 _ rfl).1
  · exact ((C7_login_frame sUser "u2").2 _ rfl).2

/-- C5: every resource operation taking an identifying path parameter
(`account_id`, `tx_id`, `order_id`, `provider_id`) fails with a
`VezgoValidationError` and issues zero network requests — leaving the
client state untouched — when the identifier is the empty string. -/
theorem C5_empty_id_validation (now : Int) (http : HttpRequest → HttpOutcome)
    (jwtDecode : Json → Option Claims) (s : Vezgo) :
    (∀ wallet, Accounts.get_one "" wallet now http jwtDecode s =
      ⟨.error (.vezgo (validationErr "Please provide a valid Vezgo account ID.")),
        s, []⟩) ∧
    (Accounts.sync "" now http jwtDecode s =
      ⟨.error (.vezgo (validationErr "Please provide a valid Vezgo account ID.")),
        s, []⟩) ∧
    (Accounts.remove "" now http jwtDecode s =
      ⟨.error (.vezgo (validationErr "Please provide a valid Vezgo account ID.")),
        s, []⟩) ∧
    (∀ ticker from_date to_date wallet last limit sort types exclude_fields,
      Transactions.get_list "" ticker from_date to_date wallet last limit sort
          types exclude_fields now http jwtDecode s =
        ⟨.error (.vezgo (validationErr "Please provide a valid Vezgo account ID.")),
          s, []⟩) ∧
    (∀ tx_id, Transactions.get_one "" tx_id now http jwtDecode s =
      ⟨.error (.vezgo (validationErr "Please provide a valid Vezgo account ID.")),
        s, []⟩) ∧
    (∀ account_id, account_id ≠ "" →
      Transactions.get_one account_id "" now http jwtDecode s =
        ⟨.error (.vezgo
            (validationErr "Please provide a valid Vezgo transaction ID.")),
          s, []⟩) ∧
    (∀ from_date to_date last limit sort,
      Orders.get_list "" from_date to_date last limit sort now http jwtDecode s =
        ⟨.error (.vezgo (validationErr "Please provide a valid Vezgo account ID.")),
          s, []⟩) ∧
    (∀ order_id, Orders.get_one "" order_id now http jwtDecode s =
      ⟨.error (.vezgo (validationErr "Please provide a valid Vezgo account ID.")),
        s, []⟩) ∧
    (∀ account_id, account_id ≠ "" →
      Orders.get_one account_id "" now http jwtDecode s =
        ⟨.error (.vezgo (validationErr "Please provide a valid Vezgo order ID.")),
          s, []⟩) ∧
    (∀ from_date to_date wallet,
      History.get_list "" from_date to_date wallet now http jwtDecode s =
        ⟨.error (.vezgo (validationErr "Please provide a valid Vezgo account ID.")),
          s, []⟩) ∧
    (Providers.get_one "" now http jwtDecode s =
      ⟨.error (.vezgo (validationErr "Please provide a valid provider ID.")),
        s, []⟩) := by
  refine ⟨fun wallet => rfl, rfl, rfl, fun _ _ _ _ _ _ _ _ _ => rfl,
    fun tx_id => rfl, ?_, fun _ _ _ _ _ => rfl, fun order_id => rfl, ?_,
    fun _ _ _ => rfl, rfl⟩
  · intro account_id ha
    simp [Transactions.get_one, ha]
  · intro account_id ha
    simp [Orders.get_one, ha]

/-- Witness for C5 at concrete arguments: an empty `tx_id` with a
non-empty `account_id` on the user fixture yields the transaction-ID
validation error with no request issued. -/
theorem C5_empty_id_validation_witness :
    Transactions.get_one "a1" "" 0 httpDown jdNone sUser =
      ⟨.error (.vezgo
          (validationErr "Please provide a valid Vezgo transaction ID.")),
        sUser, []⟩ :=
  (C5_empty_id_validation 0 httpDown jdNone sUser).2.2.2.2.2.1 "a1" (by decide)

/-- C1 counterexample: the claim's "otherwise" branch — "performs exactly
one token-fetch request and returns its result, replacing the cache" —
fails on an anonymous client.  With no cached token, `get_token` takes
the fetch path, yet zero network requests are performed (the request log
is `[]`), the result is a `VezgoValidationError`, and the cache is not
replaced (the state is returned unchanged). -/
theorem C1_get_token_counterexample :
    getToken 0 10 httpDown jdNone sAnon =
      ⟨.error (.vezgo (validationErr
          "Cannot fetch token without a login_name. Use login() method first.")),
        sAnon, []⟩ := rfl


/-- Helper: `get_token` on a populated cache reduces to the freshness
conditional. -/
theorem getToken_cache_eq (now minimum_lifetime : Int)
    (http : HttpRequest → HttpOutcome) (jwtDecode : Json → Option Claims)
    (s : Vezgo) (t : Json) (p : Claims) (ht : s.token = some t)
    (hp : s.token_payload = some p) :
    getToken now minimum_lifetime http jwtDecode s =
      if (t.truthy && !p.isEmpty) = true then
        if now < (lookupKey "exp" p).getD 0 - minimum_lifetime then
          (⟨.ok t, s, []⟩ : Outcome Json)
        else fetchToken http jwtDecode s
      else fetchToken http jwtDecode s := by
  unfold getToken
  rw [ht, hp]

/-- Helper: `get_token` with no cached token delegates to `fetch_token`. -/
theorem getToken_noToken_eq (now minimum_lifetime : Int)
    (http : HttpRequest → HttpOutcome) (jwtDecode : Json → Option Claims)
    (s : Vezgo) (ht : s.token = none) :
    getToken now minimum_lifetime http jwtDecode s = fetchToken http jwtDecode s := by
  unfold getToken
  rw [ht]

/-- Helper: `get_token` with no cached claims delegates to `fetch_token`. -/
theorem getToken_noPayload_eq (now minimum_lifetime : Int)
    (http : HttpRequest → HttpOutcome) (jwtDecode : Json → Option Claims)
    (s : Vezgo) (t : Json) (ht : s.token = some t) (hp : s.token_payload = none) :
    getToken now minimum_lifetime http jwtDecode s = fetchToken http jwtDecode s := by
  unfold getToken
  rw [ht, hp]

/-- Helper: the freshness test on a populated cache, as a Boolean. -/
theorem cachedFresh_eq (now minimum_lifetime : Int) (s : Vezgo) (t : Json)
    (p : Claims) (ht : s.token = some t) (hp : s.token_payload = some p) :
    cachedFresh now minimum_lifetime s =
      (t.truthy && !p.isEmpty &&
        decide (now < (lookupKey "exp" p).getD 0 - minimum_lifetime)) := by
  unfold cachedFresh
  rw [ht, hp]

/-- Helper: the freshness test fails when a cache field is absent. -/
theorem cachedFresh_none (now minimum_lifetime : Int) (s : Vezgo)
    (h : s.token = none ∨ s.token_payload = none) :
    cachedFresh now minimum_lifetime s = false := by
  unfold cachedFresh
  rcases h with h | h
  · rw [h]
  · rw [h]
    rcases s.token with _ | t <;> rfl

/-- C1 (amended): if both cache fields are truthy and
`now < exp - minimum_lifetime` (`exp` defaulting to 0), `get_token`
returns the cached token with no network request and no state change;
otherwise it delegates to `fetch_token`, whose result, state and request
log it returns unchanged; and whenever that fetch succeeds, exactly one
token-fetch request was performed and the cache is replaced wholesale
with the fetched token and its decoded claims. -/
theorem C1_get_token_cache (now minimum_lifetime : Int)
    (http : HttpRequest → HttpOutcome) (jwtDecode : Json → Option Claims)
    (s : Vezgo) :
    (∀ t, s.token = some t → cachedFresh now minimum_lifetime s = true →
      getToken now minimum_lifetime http jwtDecode s = ⟨.ok t, s, []⟩) ∧
    (cachedFresh now minimum_lifetime s = false →
      getToken now minimum_lifetime http jwtDecode s =
        fetchToken http jwtDecode s) ∧
    (∀ tok s2 reqs, fetchToken http jwtDecode s = ⟨.ok tok, s2, reqs⟩ →
      reqs = [tokenRequest s] ∧
      ∃ cl, jwtDecode tok = some cl ∧
        s2 = { s with token := some tok, token_payload := some cl }) := by
  refine ⟨?_, ?_, ?_⟩
  · intro t ht hf
    rcases hsp : s.token_payload with _ | p
    · rw [cachedFresh_none now minimum_lifetime s (Or.inr hsp)] at hf
      exact absurd hf (by simp)
    · rw [cachedFresh_eq now minimum_lifetime s t p ht hsp] at hf
      simp only [Bool.and_eq_true, decide_eq_true_eq] at hf
      rw [getToken_cache_eq now minimum_lifetime http jwtDecode s t p ht hsp,
        if_pos (by simp [hf.1.1, hf.1.2]), if_pos hf.2]
  · intro hf
    rcases hst : s.token with _ | t
    · exact getToken_noToken_eq now minimum_lifetime http jwtDecode s hst
    · rcases hsp : s.token_payload with _ | p
      · exact getToken_noPayload_eq now minimum_lifetime http jwtDecode s t hst hsp
      · rw [getToken_cache_eq now minimum_lifetime http jwtDecode s t p hst hsp]
        rw [cachedFresh_eq now minimum_lifetime s t p hst hsp,
          Bool.and_eq_false_iff] at hf
        rcases hf with hf | hf
        · rw [if_neg (by simp [hf])]
        · by_cases h1 : (t.truthy && !p.isEmpty) = true
          · rw [if_pos h1, if_neg (by simpa using hf)]
          · rw [if_neg h1]
  · intro tok s2 reqs h
    unfold fetchToken at h
    split_ifs at h
    · simp at h
    · split at h
      · simp at h
      · split at h
        · simp at h
        · split at h
          · simp at h
          · split at h
            · simp at h
            · split_ifs at h
              · simp at h
              · split at h
                · simp at h
                · simp only [Outcome.mk.injEq, Except.ok.injEq] at h
                  obtain ⟨htok, hs2, hreqs⟩ := h
                  subst htok
                  subst hs2
                  subst hreqs
                  refine ⟨rfl, _, ?_, rfl⟩
                  assumption
          · simp at h

/-- Witness for C1 on the user fixture: at time 0 the cached token (expiry
99, margin 10) is served with no request; at time 100 the call delegates
to `fetch_token`; and a successful fetch of token `"t2"` issues exactly
one request and replaces the cache. -/
theorem C1_get_token_cache_witness :
    getToken 0 10 httpDown jdNone sUser = ⟨.ok (Json.str "old"), sUser, []⟩ ∧
    getToken 100 10 httpDown jdNone sUser = fetchToken httpDown jdNone sUser ∧
    (fetchToken (httpToken (Json.str "t2")) (jdExp 500) sUser).requests =
      [tokenRequest sUser] ∧
    jdExp 500 (Json.str "t2") = some [("exp", 500)] := by
  have h3 := (C1_get_token_cache 100 10 (httpToken (Json.str "t2")) (jdExp 500)
      sUser).2.2 (Json.str "t2")
      ({ sUser with
          token := some (Json.str "t2")
          token_payload := some [("exp", 500)] })
      [tokenRequest sUser] rfl
  exact ⟨(C1_get_token_cache 0 10 httpDown jdNone sUser).1 (Json.str "old") rfl rfl,
    (C1_get_token_cache 100 10 httpDown jdNone sUser).2.1 rfl, h3.1, rfl⟩

/-- C3 counterexample: the claim's "in all other cases it returns the
token string" fails.  With a login name bound, no transport failure and a
token-field-free analysis inapplicable (the endpoint answers with HTTP
500 and body `{}`), `fetch_token` raises the status-mapped generic
`VezgoAPIError` — neither a validation error, nor an authentication
error, nor a returned token. -/
theorem C3_fetch_token_counterexample :
    fetchToken http500 jdNone sUser =
      ⟨.error (.vezgo ⟨.api, Json.str "oops", some 500, []⟩), sUser,
        [tokenRequest sUser]⟩ := rfl

/-- C3 (amended): `fetch_token` fails with a validation error and zero
network requests whenever no truthy login name is bound; with a login
name bound it issues exactly one request and: fails with an
authentication error on a transport-level failure; fails with the
status-mapped error of the error taxonomy when the response status is not
a success; fails with an authentication error when a success response's
object body has no truthy `token` field; and in the remaining cases —
a success response with an object body whose truthy token decodes —
returns the token string from the response. -/
theorem C3_fetch_token_errors (http : HttpRequest → HttpOutcome)
    (jwtDecode : Json → Option Claims) (s : Vezgo) :
    (truthyOptStr s.login_name = false →
      fetchToken http jwtDecode s =
        ⟨.error (.vezgo (validationErr
            "Cannot fetch token without a login_name. Use login() method first.")),
          s, []⟩) ∧
    (∀ e, truthyOptStr s.login_name = true →
      http (tokenRequest s) = .transportError e →
      fetchToken http jwtDecode s =
        ⟨.error (.vezgo (authenticationErr ("Failed to fetch token: " ++ e))), s,
          [tokenRequest s]⟩) ∧
    (∀ r err, truthyOptStr s.login_name = true →
      http (tokenRequest s) = .response r → handleResponseErrors r = some err →
      fetchToken http jwtDecode s =
        ⟨.error (.vezgo err), s, [tokenRequest s]⟩) ∧
    (∀ r fields, truthyOptStr s.login_name = true →
      http (tokenRequest s) = .response r → isSuccessStatus r.status = true →
      r.json = some (Json.obj fields) → lookupKey "token" fields = none →
      fetchToken http jwtDecode s =
        ⟨.error (.vezgo (authenticationErr "No token received from API")), s,
          [tokenRequest s]⟩) ∧
    (∀ r fields tok, truthyOptStr s.login_name = true →
      http (tokenRequest s) = .response r → isSuccessStatus r.status = true →
      r.json = some (Json.obj fields) → lookupKey "token" fields = some tok →
      tok.truthy = false →
      fetchToken http jwtDecode s =
        ⟨.error (.vezgo (authenticationErr "No token received from API")), s,
          [tokenRequest s]⟩) ∧
    (∀ r fields tok cl, truthyOptStr s.login_name = true →
      http (tokenRequest s) = .response r → isSuccessStatus r.status = true →
      r.json = some (Json.obj fields) → lookupKey "token" fields = some tok →
      tok.truthy = true → jwtDecode tok = some cl →
      fetchToken http jwtDecode s =
        ⟨.ok tok, { s with token := some tok, token_payload := some cl },
          [tokenRequest s]⟩) := by
  refine ⟨?_, ?_, ?_, ?_, ?_, ?_⟩
  · intro hl
    unfold fetchToken
    rw [if_pos hl]
  · intro e hl hh
    unfold fetchToken
    rw [if_neg (by simp [hl]), hh]
  · intro r err hl hh herr
    unfold fetchToken
    rw [if_neg (by simp [hl]), hh]
    simp only [herr]
  · intro r fields hl hh hs hj htok
    unfold fetchToken
    rw [if_neg (by simp [hl]), hh]
    simp only [handleResponseErrors_success r hs, hj, htok]
  · intro r fields tok hl hh hs hj htok htr
    unfold fetchToken
    rw [if_neg (by simp [hl]), hh]
    simp only [handleResponseErrors_success r hs, hj, htok, htr, if_pos]
  · intro r fields tok cl hl hh hs hj htok htr hcl
    unfold fetchToken
    rw [if_neg (by simp [hl]), hh]
    simp only [handleResponseErrors_success r hs, hj, htok, htr,
      Bool.true_eq_false, if_neg, hcl]
    simp

/-- Witness for C3 on the user fixture: a transport failure maps to an
authentication error, and a successful fetch of `"t2"` (decoding to
expiry 500) returns the token. -/
theorem C3_fetch_token_errors_witness :
    fetchToken httpDown jdNone sUser =
      ⟨.error (.vezgo (authenticationErr "Failed to fetch token: ConnectError")),
        sUser, [tokenRequest sUser]⟩ ∧
    fetchToken (httpToken (Json.str "t2")) (jdExp 500) sUser =
      ⟨.ok (Json.str "t2"),
        { sUser with
            token := some (Json.str "t2")
            token_payload := some [("exp", 500)] },
        [tokenRequest sUser]⟩ :=
  ⟨(C3_fetch_token_errors httpDown jdNone sUser).2.1 "ConnectError" rfl rfl,
   (C3_fetch_token_errors (httpToken (Json.str "t2")) (jdExp 500) sUser).2.2.2.2.2
     ⟨200, some (Json.obj [("token", Json.str "t2")]), ""⟩
     [("token", Json.str "t2")] (Json.str "t2") [("exp", 500)]
     rfl rfl rfl rfl rfl rfl rfl⟩

/-- C4: evaluation of `fetch_token` at the failing input.  On a user
client holding cached token `"old"` with claims `{"exp": 99}`, the token
endpoint answers `200 {"token": "not-a-jwt"}` and JWT decoding fails
(as `jwt.decode` does on a malformed token).  The call fails, yet
`_token` has been replaced by `"not-a-jwt"` while `_token_payload` still
holds the previous token's claims — the cache is partially updated,
because `self._token` is assigned (line 216) before the fallible
`jwt.decode` (line 217). -/
theorem C4_partial_update_on_decode_failure :
    fetchToken (httpToken (Json.str "not-a-jwt")) jdNone sUser =
      ⟨.error (.pythonError "DecodeError"),
        { sUser with token := some (Json.str "not-a-jwt") },
        [tokenRequest sUser]⟩ ∧
    ({ sUser with token := some (Json.str "not-a-jwt") } : Vezgo).token_payload =
      some [("exp", 99)] ∧
    sUser.token_payload = some [("exp", 99)] ∧
    sUser.token = some (Json.str "old") ∧
    "not-a-jwt" ≠ "old" :=
  ⟨rfl, rfl, rfl, rfl, by decide⟩

/-- Helper: membership in a truthy-string filter entry. -/
theorem mem_ifTruthyStr (key : String) (o : Option String) (k : String) (v : Json) :
    (k, v) ∈ ifTruthyStr key o ↔
      k = key ∧ ∃ x, o = some x ∧ x ≠ "" ∧ v = Json.str x := by
  cases o with
  | none => simp [ifTruthyStr]
  | some x =>
    by_cases hx : x = "" <;>
      simp [ifTruthyStr, hx, Prod.ext_iff]

/-- Helper: membership in a non-None string filter entry (`last`). -/
theorem mem_ifSomeStr (key : String) (o : Option String) (k : String) (v : Json) :
    (k, v) ∈ ifSomeStr key o ↔
      k = key ∧ ∃ x, o = some x ∧ v = Json.str x := by
  cases o with
  | none => simp [ifSomeStr]
  | some x => simp [ifSomeStr, Prod.ext_iff]

/-- Helper: membership in a truthy-integer filter entry (`limit`). -/
theorem mem_ifTruthyInt (key : String) (o : Option Int) (k : String) (v : Json) :
    (k, v) ∈ ifTruthyInt key o ↔
      k = key ∧ ∃ n, o = some n ∧ n ≠ 0 ∧ v = Json.num n := by
  cases o with
  | none => simp [ifTruthyInt]
  | some n =>
    by_cases hn : n = 0 <;>
      simp [ifTruthyInt, hn, Prod.ext_iff]

/-- Helper: a truthy-string filter entry contributes at most its own key. -/
theorem keys_ifTruthyStr (key : String) (o : Option String) :
    List.Sublist ((ifTruthyStr key o).map Prod.fst) [key] := by
  cases o with
  | none => simp [ifTruthyStr]
  | some x => by_cases hx : x = "" <;> simp [ifTruthyStr, hx]

/-- Helper: a non-None string filter entry contributes at most its own key. -/
theorem keys_ifSomeStr (key : String) (o : Option String) :
    List.Sublist ((ifSomeStr key o).map Prod.fst) [key] := by
  cases o with
  | none => simp [ifSomeStr]
  | some x => simp [ifSomeStr]

/-- Helper: a truthy-integer filter entry contributes at most its own key. -/
theorem keys_ifTruthyInt (key : String) (o : Option Int) :
    List.Sublist ((ifTruthyInt key o).map Prod.fst) [key] := by
  cases o with
  | none => simp [ifTruthyInt]
  | some n => by_cases hn : n = 0 <;> simp [ifTruthyInt, hn]

/-- C8 counterexample: "a supplied filter always appears" fails.  In
`Transactions.get_list`, the supplied (non-absent) filter `ticker=""` is
falsy under Python truthiness, so the built query-parameter dict is empty
and no `ticker` key is sent. -/
theorem C8_filters_counterexample :
    Transactions.listParams (some "") none none none none none none none none
        = [] ∧
    (some "" : Option String) ≠ none :=
  ⟨rfl, by simp⟩

/-- C8 (amended): in every resource list operation with optional filters
(`Accounts.get_list`, `Transactions.get_list`, `History.get_list`,
`Orders.get_list`, `Providers.get_list`), a filter key appears in the
query parameters iff the filter is truthy — non-absent and non-empty
(for `limit`: non-absent and nonzero) — except `last`, which appears iff
it is non-absent (empty string allowed); an absent filter never appears;
and the keys are pairwise distinct, so the parameter dict's meaning is
independent of the order of its independent key/value pairs. -/
theorem C8_filters_params (ticker from_date to_date wallet last : Option String)
    (limit : Option Int) (sort types exclude_fields : Option String)
    (ofrom oto olast : Option String) (olimit : Option Int)
    (osort : Option String) (hfrom hto hwallet : Option String)
    (awallet pcategory : Option String) :
    ((Transactions.listParams ticker from_date to_date wallet last limit sort
        types exclude_fields).map Prod.fst).Nodup ∧
    (∀ k v, (k, v) ∈ Transactions.listParams ticker from_date to_date wallet
        last limit sort types exclude_fields ↔
      ((((((((k = "ticker" ∧ ∃ x, ticker = some x ∧ x ≠ "" ∧ v = Json.str x) ∨
       (k = "from" ∧ ∃ x, from_date = some x ∧ x ≠ "" ∧ v = Json.str x)) ∨
       (k = "to" ∧ ∃ x, to_date = some x ∧ x ≠ "" ∧ v = Json.str x)) ∨
       (k = "wallet" ∧ ∃ x, wallet = some x ∧ x ≠ "" ∧ v = Json.str x)) ∨
       (k = "last" ∧ ∃ x, last = some x ∧ v = Json.str x)) ∨
       (k = "limit" ∧ ∃ n, limit = some n ∧ n ≠ 0 ∧ v = Json.num n)) ∨
       (k = "sort" ∧ ∃ x, sort = some x ∧ x ≠ "" ∧ v = Json.str x)) ∨
       (k = "types" ∧ ∃ x, types = some x ∧ x ≠ "" ∧ v = Json.str x)) ∨
       (k = "exclude_fields" ∧
         ∃ x, exclude_fields = some x ∧ x ≠ "" ∧ v = Json.str x)) ∧
    ((Orders.listParams ofrom oto olast olimit osort).map Prod.fst).Nodup ∧
    (∀ k v, (k, v) ∈ Orders.listParams ofrom oto olast olimit osort ↔
      ((((k = "from" ∧ ∃ x, ofrom = some x ∧ x ≠ "" ∧ v = Json.str x) ∨
       (k = "to" ∧ ∃ x, oto = some x ∧ x ≠ "" ∧ v = Json.str x)) ∨
       (k = "last" ∧ ∃ x, olast = some x ∧ v = Json.str x)) ∨
       (k = "limit" ∧ ∃ n, olimit = some n ∧ n ≠ 0 ∧ v = Json.num n)) ∨
       (k = "sort" ∧ ∃ x, osort = some x ∧ x ≠ "" ∧ v = Json.str x)) ∧
    ((History.listParams hfrom hto hwallet).map Prod.fst).Nodup ∧
    (∀ k v, (k, v) ∈ History.listParams hfrom hto hwallet ↔
      (((k = "from" ∧ ∃ x, hfrom = some x ∧ x ≠ "" ∧ v = Json.str x) ∨
       (k = "to" ∧ ∃ x, hto = some x ∧ x ≠ "" ∧ v = Json.str x)) ∨
       (k = "wallet" ∧ ∃ x, hwallet = some x ∧ x ≠ "" ∧ v = Json.str x))) ∧
    ((Accounts.listParams awallet).map Prod.fst).Nodup ∧
    (∀ k v, (k, v) ∈ Accounts.listParams awallet ↔
      (k = "wallet" ∧ ∃ x, awallet = some x ∧ x ≠ "" ∧ v = Json.str x)) ∧
    ((Providers.listParams pcategory).map Prod.fst).Nodup ∧
    (∀ k v, (k, v) ∈ Providers.listParams pcategory ↔
      (k = "category" ∧ ∃ x, pcategory = some x ∧ x ≠ "" ∧ v = Json.str x)) := by
  refine ⟨?_, ?_, ?_, ?_, ?_, ?_, ?_, ?_, ?_, ?_⟩
  · have hsub : List.Sublist
        ((Transactions.listParams ticker from_date to_date wallet last limit
          sort types exclude_fields).map Prod.fst)
        ["ticker", "from", "to", "wallet", "last", "limit", "sort", "types",
          "exclude_fields"] := by
      unfold Transactions.listParams
      simp only [List.map_append]
      exact ((((((((keys_ifTruthyStr "ticker" ticker).append
        (keys_ifTruthyStr "from" from_date)).append
        (keys_ifTruthyStr "to" to_date)).append
        (keys_ifTruthyStr "wallet" wallet)).append
        (keys_ifSomeStr "last" last)).append
        (keys_ifTruthyInt "limit" limit)).append
        (keys_ifTruthyStr "sort" sort)).append
        (keys_ifTruthyStr "types" types)).append
        (keys_ifTruthyStr "exclude_fields" exclude_fields)
    exact List.Nodup.sublist hsub (by decide)
  · intro k v
    unfold Transactions.listParams
    simp only [List.mem_append, mem_ifTruthyStr, mem_ifSomeStr, mem_ifTruthyInt]
  · have hsub : List.Sublist
        ((Orders.listParams ofrom oto olast olimit osort).map Prod.fst)
        ["from", "to", "last", "limit", "sort"] := by
      unfold Orders.listParams
      simp only [List.map_append]
      exact ((((keys_ifTruthyStr "from" ofrom).append
        (keys_ifTruthyStr "to" oto)).append
        (keys_ifSomeStr "last" olast)).append
        (keys_ifTruthyInt "limit" olimit)).append
        (keys_ifTruthyStr "sort" osort)
    exact List.Nodup.sublist hsub (by decide)
  · intro k v
    unfold Orders.listParams
    simp only [List.mem_append, mem_ifTruthyStr, mem_ifSomeStr, mem_ifTruthyInt]
  · have hsub : List.Sublist
        ((History.listParams hfrom hto hwallet).map Prod.fst)
        ["from", "to", "wallet"] := by
      unfold History.listParams
      simp only [List.map_append]
      exact ((keys_ifTruthyStr "from" hfrom).append
        (keys_ifTruthyStr "to" hto)).append
        (keys_ifTruthyStr "wallet" hwallet)
    exact List.Nodup.sublist hsub (by decide)
  · intro k v
    unfold History.listParams
    simp only [List.mem_append, mem_ifTruthyStr]
  · exact List.Nodup.sublist (keys_ifTruthyStr "wallet" awallet) (by decide)
  · intro k v
    unfold Accounts.listParams
    simp only [mem_ifTruthyStr]
  · exact List.Nodup.sublist (keys_ifTruthyStr "category" pcategory) (by decide)
  · intro k v
    unfold Providers.listParams
    simp only [mem_ifTruthyStr]

/-- Witness for C8 at concrete filters: a truthy `ticker="BTC"` appears,
a supplied-but-falsy `limit=0` does not, and a truthy `category`
appears for `Providers.get_list`. -/
theorem C8_filters_params_witness :
    ("ticker", Json.str "BTC") ∈ Transactions.listParams (some "BTC") none none
        none none none none none none ∧
    ("limit", Json.num 0) ∉ Transactions.listParams (some "BTC") none none none
        none (some 0) none none none ∧
    ("category", Json.str "exchanges") ∈ Providers.listParams (some "exchanges") := by
  refine ⟨?_, ?_, ?_⟩
  · exact ((C8_filters_params (some "BTC") none none none none none none none
      none none none none none none none none none none none).2.1 "ticker"
      (Json.str "BTC")).mpr
      (by left; left; left; left; left; left; left; left;
          exact ⟨rfl, "BTC", rfl, by decide, rfl⟩)
  · intro hmem
    have h := ((C8_filters_params (some "BTC") none none none none (some 0) none
      none none none none none none none none none none none
      none).2.1 "limit" (Json.num 0)).mp hmem
    simp at h
  · exact ((C8_filters_params none none none none none none none none none none
      none none none none none none none none
      (some "exchanges")).2.2.2.2.2.2.2.2.2 "category"
      (Json.str "exchanges")).mpr ⟨rfl, "exchanges", rfl, by decide, rfl⟩
